import Mathlib

/-!
Verification of the Hono + HyperDX logging/tracing glue code: a shallow
embedding of the logger setup routine in the logger module, the pino mixin
that copies trace context into log records, the per-level logging facade,
the lazy logger singleton and the tracing middleware of src/index.ts, with
theorems about their behavior.
-/

set_option maxRecDepth 8192

namespace HDX

/-- Severity levels accepted by createLog: the union type in the createLog
signature of the logger module. -/
inductive Level
  | info
  | warn
  | error
  | debug
  | trace
deriving DecidableEq

/-- Identifier data of a span as read by the mixin: traceId, spanId and an
optional traceFlags byte (the source defaults an absent traceFlags to 0
with a nullish coalescing operator). -/
structure SpanContext where
  traceId : String
  spanId : String
  traceFlags : Option Nat
deriving DecidableEq

/-- The ambient OpenTelemetry context as the mixin observes it: no active
span (outer none), an active span whose spanContext is absent (some none,
covered by the second guard of the mixin), or a well-formed active span. -/
abbrev ActiveContext := Option (Option SpanContext)

/-- JavaScript's Number toString with radix 16 on a natural number:
lowercase hexadecimal digits, no padding, and the single digit 0 for 0. -/
def toString16 (n : Nat) : String :=
  String.mk (Nat.toDigits 16 n)

/-- The trace-flags rendering of the mixin: a string template that places
the character 0 before the natural hexadecimal rendering of the byte. -/
def renderTraceFlags (v : Nat) : String :=
  "0" ++ toString16 v

/-- The pino mixin of the logger module: it reads the active span from the
ambient context, degrades to an empty field map when no span is active or
the span's context is absent, and otherwise contributes exactly trace_id,
span_id and trace_flags, defaulting an absent flags value to 0. -/
def mixin : ActiveContext → List (String × String)
  | none => []
  | some none => []
  | some (some sc) =>
      [("trace_id", sc.traceId),
       ("span_id", sc.spanId),
       ("trace_flags", renderTraceFlags (sc.traceFlags.getD 0))]

/-- The optional options bundle accepted by every logging entry point: an
optional data map and an optional tag. Data values are abstracted to
strings; only their presence and defaulting matter to the claims. -/
structure LogOptions where
  data : Option (List (String × String))
  tag : Option String
deriving DecidableEq

/-- A structured log record as handed to the sinks: severity, message, the
data and tag fields shaped by createLog, and the fields the mixin merged
in. -/
structure LogRecord where
  level : Level
  message : String
  data : List (String × String)
  tag : String
  extraFields : List (String × String)
deriving DecidableEq

/-- createLog of the logger module: defaults data to the empty map and tag
to the empty string, then emits the record with the mixin fields merged in
(pino invokes the mixin on every emitted record). -/
def createLog (ctx : ActiveContext) (level : Level) (message : String)
    (options : Option LogOptions) : LogRecord :=
  let data := (options.bind LogOptions.data).getD []
  let tag := (options.bind LogOptions.tag).getD ""
  { level := level, message := message, data := data, tag := tag,
    extraFields := mixin ctx }

/-- A sink registered with the pino transport: the pretty console target
or the HyperDX remote target. -/
inductive PinoTarget
  | pinoPretty
  | hyperdxPino
deriving DecidableEq

/-- The logger's mutable state: the isInitialized flag and the list of
registered sinks. The pinoLogger field is represented by its target list;
its record-shaping behavior is modelled by createLog. -/
structure AppLogger where
  isInitialized : Bool
  pinoTargets : List PinoTarget
deriving DecidableEq

/-- A freshly constructed AppLogger: not initialized, no sinks. -/
def AppLogger.new : AppLogger := ⟨false, []⟩

/-- The info method of the facade: a pass-through to createLog at level
info. -/
def AppLogger.info (ctx : ActiveContext) (message : String)
    (options : Option LogOptions) : LogRecord :=
  createLog ctx Level.info message options

/-- The warn method of the facade: a pass-through to createLog at level
warn. -/
def AppLogger.warn (ctx : ActiveContext) (message : String)
    (options : Option LogOptions) : LogRecord :=
  createLog ctx Level.warn message options

/-- The error method of the facade: a pass-through to createLog at level
error. -/
def AppLogger.error (ctx : ActiveContext) (message : String)
    (options : Option LogOptions) : LogRecord :=
  createLog ctx Level.error message options

/-- The severity levels for which the facade defines a dedicated method
(info, warn and error); debug and trace have no dedicated method and are
reachable only through createLog's level parameter. -/
def dedicatedLevelMethods : List Level :=
  [Level.info, Level.warn, Level.error]

/-- The two environment variables the setup routine reads; none models an
unset variable, some a set one (possibly set to the empty string). -/
structure ProcessEnv where
  hyperdxApiKey : Option String
  hyperdxService : Option String
deriving DecidableEq

/-- JavaScript truthiness of an optional environment string as tested by
the credential guard and by the apiKey guard on the HyperDX sink: an unset
variable and the empty string are falsy. -/
def falsy : Option String → Bool
  | none => true
  | some s => s == ""

/-- The setup routine of AppLogger: a no-op on an already-initialized
logger; otherwise it validates that both environment values are truthy
(throwing the descriptive error when not), registers the pino-pretty
target and, behind the apiKey guard, the HyperDX target, and marks the
logger initialized. The external HyperDX SDK side effect carries no
observable state here. -/
def initializeLogger (env : ProcessEnv) (l : AppLogger) : Except String AppLogger :=
  if l.isInitialized then
    Except.ok l
  else if falsy env.hyperdxApiKey || falsy env.hyperdxService then
    Except.error "HYPERDX_API_KEY and HYPERDX_SERVICE must be set"
  else
    let ts := [PinoTarget.pinoPretty]
    let ts := if falsy env.hyperdxApiKey then ts else ts ++ [PinoTarget.hyperdxPino]
    Except.ok { isInitialized := true, pinoTargets := ts }

/-- getLogger: returns the global logger, constructing and initializing it
on the first call. In the source the assignment to globalLogger precedes
the setup call, so on a setup error the global slot already holds the
uninitialized instance. The first component is the new global slot, the
second the call's outcome. -/
def getLogger (env : ProcessEnv) :
    Option AppLogger → Option AppLogger × Except String AppLogger
  | some l => (some l, Except.ok l)
  | none =>
      match initializeLogger env AppLogger.new with
      | Except.ok l => (some l, Except.ok l)
      | Except.error e => (some AppLogger.new, Except.error e)

/-- A JavaScript error object: the message plus an identity tag that
distinguishes distinct objects with equal messages, so that the
identity-preserving rethrow is expressible. -/
structure JsError where
  message : String
  objectId : Nat
deriving DecidableEq

/-- A span's status: unset, ok (setStatus code 1) or error with a message
(setStatus code 2). -/
inductive SpanStatus
  | unset
  | ok
  | error (message : String)
deriving DecidableEq

/-- The observable state of the request span the middleware manipulates. -/
structure SpanState where
  status : SpanStatus
  recordedExceptions : List JsError
  ended : Bool
deriving DecidableEq

/-- A span as startActiveSpan hands it to the middleware callback. -/
def newSpan : SpanState := ⟨SpanStatus.unset, [], false⟩

/-- The tracing middleware body of src/index.ts applied to the outcome of
awaiting the downstream handler: on success it sets status ok; on an
exception it records the exception, sets error status carrying the
message, and rethrows the same error object; in both cases the finally
block ends the span. -/
def tracingMiddleware {α : Type} (span : SpanState) :
    Except JsError α → SpanState × Except JsError α
  | Except.ok a =>
      ({ span with status := SpanStatus.ok, ended := true }, Except.ok a)
  | Except.error e =>
      ({ span with
          recordedExceptions := span.recordedExceptions ++ [e],
          status := SpanStatus.error e.message,
          ended := true },
        Except.error e)

/-- Truthiness of an optional environment string, characterized: falsy
exactly for an unset variable or the empty string. -/
theorem falsy_eq_true_iff (o : Option String) :
    falsy o = true ↔ (o = none ∨ o = some "") := by
  cases o with
  | none => simp [falsy]
  | some s => simp [falsy]

/-- Truthiness characterized on the false side: an environment value is
truthy exactly when it is set and non-empty. -/
theorem falsy_eq_false_iff (o : Option String) :
    falsy o = false ↔ ¬(o = none ∨ o = some "") := by
  rw [← falsy_eq_true_iff]
  cases falsy o <;> simp

/-- C1: a log emitted under a well-formed active span carries exactly the
span's trace_id and span_id (copied verbatim, together with that span's
trace_flags), and a log emitted with no active span carries none of the
trace_id, span_id and trace_flags fields. -/
theorem log_trace_fields_iff_span_active (T S : String) (f : Option Nat)
    (lv : Level) (msg : String) (o : Option LogOptions) :
    (createLog (some (some ⟨T, S, f⟩)) lv msg o).extraFields =
        [("trace_id", T), ("span_id", S),
         ("trace_flags", renderTraceFlags (f.getD 0))] ∧
    List.lookup "trace_id" (createLog (some (some ⟨T, S, f⟩)) lv msg o).extraFields
        = some T ∧
    List.lookup "span_id" (createLog (some (some ⟨T, S, f⟩)) lv msg o).extraFields
        = some S ∧
    (createLog none lv msg o).extraFields = [] :=
  ⟨rfl, rfl, rfl, rfl⟩

/-- C2 counterexample: for the trace-flags byte 255 the contributed
trace_flags string is the 3-character "0ff", not a two-character
rendering, and the leading zero is prepended although the natural hex
rendering ff already has two characters. -/
theorem trace_flags_not_two_chars :
    renderTraceFlags 255 = "0ff" ∧ (renderTraceFlags 255).length = 3 ∧
    (toString16 255).length = 2 := by
  decide

/-- C2 amended: the contributed trace_flags field is the character 0
followed by the natural lowercase hexadecimal rendering of the byte; this
yields the two-character zero-padded form exactly for bytes below 16, and
a three-character string for bytes 16 through 255 because the zero is
prepended unconditionally. -/
theorem trace_flags_zero_prepended (v : Fin 256) (T S : String) :
    List.lookup "trace_flags" (mixin (some (some ⟨T, S, some v.val⟩)))
        = some (renderTraceFlags v.val) ∧
    (renderTraceFlags v.val).length = (if v.val < 16 then 2 else 3) := by
  refine ⟨rfl, ?_⟩
  revert v
  decide

/-- C3: the trace_flags rendering is the character 0 concatenated with the
lowercase hexadecimal rendering of the byte, with no fixed-width zero
padding: 0 yields "00", 1 yields "01", and 255 yields the 3-character
"0ff". -/
theorem trace_flags_exact_rendering :
    renderTraceFlags 0 = "00" ∧ renderTraceFlags 1 = "01" ∧
    renderTraceFlags 255 = "0ff" ∧ (renderTraceFlags 255).length = 3 ∧
    ∀ v : Fin 256, renderTraceFlags v.val = "0" ++ toString16 v.val :=
  ⟨rfl, rfl, rfl, rfl, fun _ => rfl⟩

/-- C4: when the handler throws, the middleware records the exception on
the span, sets the span status to error carrying the error's message,
ends the span, and rethrows the identical error object to the caller. -/
theorem middleware_rethrows_after_recording {α : Type} (span : SpanState)
    (e : JsError) :
    (tracingMiddleware span (Except.error e : Except JsError α)).2 = Except.error e ∧
    (tracingMiddleware span (Except.error e : Except JsError α)).1.status
        = SpanStatus.error e.message ∧
    e ∈ (tracingMiddleware span (Except.error e : Except JsError α)).1.recordedExceptions ∧
    (tracingMiddleware span (Except.error e : Except JsError α)).1.ended = true := by
  refine ⟨rfl, rfl, ?_, rfl⟩
  simp [tracingMiddleware]

/-- C5: once getLogger has produced a logger, every later getLogger call
(under any environment) returns that same instance with the global slot
unchanged, and the setup routine run on an already-initialized logger is a
no-op for any environment: it neither re-registers sinks nor re-validates
the configuration. -/
theorem getLogger_construct_once (env : ProcessEnv) (g g' : Option AppLogger)
    (l : AppLogger) (h : getLogger env g = (g', Except.ok l)) :
    (∀ env2, getLogger env2 g' = (g', Except.ok l)) ∧
    (∀ env2 l2, l2.isInitialized = true → initializeLogger env2 l2 = Except.ok l2) := by
  constructor
  · have hg : g' = some l := by
      cases g with
      | some l0 =>
          simp only [getLogger, Prod.mk.injEq, Except.ok.injEq] at h
          rw [← h.1, h.2]
      | none =>
          simp only [getLogger] at h
          cases hinit : initializeLogger env AppLogger.new with
          | ok l1 =>
              rw [hinit] at h
              simp only [Prod.mk.injEq, Except.ok.injEq] at h
              rw [← h.1, h.2]
          | error e =>
              rw [hinit] at h
              simp at h
    intro env2
    rw [hg]
    rfl
  · intro env2 l2 h2
    simp [initializeLogger, h2]

/-- C5 witness: after a first successful getLogger call under a fully set
environment, a second call returns the same instance and leaves the
global slot unchanged. -/
theorem getLogger_construct_once_witness :
    getLogger ⟨some "k", some "s"⟩
        (some (AppLogger.mk true [PinoTarget.pinoPretty, PinoTarget.hyperdxPino])) =
      (some (AppLogger.mk true [PinoTarget.pinoPretty, PinoTarget.hyperdxPino]),
        Except.ok (AppLogger.mk true [PinoTarget.pinoPretty, PinoTarget.hyperdxPino])) :=
  (getLogger_construct_once ⟨some "k", some "s"⟩ none
      (some (AppLogger.mk true [PinoTarget.pinoPretty, PinoTarget.hyperdxPino]))
      (AppLogger.mk true [PinoTarget.pinoPretty, PinoTarget.hyperdxPino]) rfl).1
    ⟨some "k", some "s"⟩

/-- C6 counterexample: with the API key set to the empty string and the
service name set, both variables are present in the environment, yet the
setup routine throws its descriptive error. -/
theorem setup_throws_on_present_empty_key :
    (ProcessEnv.mk (some "") (some "hono")).hyperdxApiKey ≠ none ∧
    (ProcessEnv.mk (some "") (some "hono")).hyperdxService ≠ none ∧
    initializeLogger (ProcessEnv.mk (some "") (some "hono")) AppLogger.new =
      Except.error "HYPERDX_API_KEY and HYPERDX_SERVICE must be set" := by
  refine ⟨by simp, by simp, rfl⟩

/-- C6 amended: the setup routine throws its one descriptive error exactly
when the API key or the service name is unset or set to the empty string
(JavaScript-falsy), and completes without throwing when both are set and
non-empty. -/
theorem setup_fails_iff_falsy_credentials (env : ProcessEnv) :
    (initializeLogger env AppLogger.new =
        Except.error "HYPERDX_API_KEY and HYPERDX_SERVICE must be set" ↔
      (env.hyperdxApiKey = none ∨ env.hyperdxApiKey = some "" ∨
       env.hyperdxService = none ∨ env.hyperdxService = some "")) ∧
    ((falsy env.hyperdxApiKey || falsy env.hyperdxService) = false →
      ∃ l, initializeLogger env AppLogger.new = Except.ok l) := by
  obtain ⟨a, s⟩ := env
  constructor
  · cases hfa : falsy a <;> cases hfs : falsy s <;>
      simp only [initializeLogger, AppLogger.new, hfa, hfs, Bool.or_self,
        Bool.or_true, Bool.true_or, Bool.false_or, if_true, if_false,
        Bool.false_eq_true, ite_false, ite_true] <;>
      simp_all [falsy_eq_true_iff, falsy_eq_false_iff]
  · intro hfalse
    rw [Bool.or_eq_false_iff] at hfalse
    refine ⟨⟨true, [PinoTarget.pinoPretty, PinoTarget.hyperdxPino]⟩, ?_⟩
    simp [initializeLogger, AppLogger.new, hfalse.1, hfalse.2]

/-- C7 counterexample: the debug and trace severity levels have no
dedicated entry-point method on the facade; dedicated methods exist only
for info, warn and error. -/
theorem facade_lacks_debug_and_trace :
    Level.debug ∉ dedicatedLevelMethods ∧ Level.trace ∉ dedicatedLevelMethods ∧
    dedicatedLevelMethods = [Level.info, Level.warn, Level.error] := by
  decide

/-- C7 amended: dedicated per-level entry points exist exactly for info,
warn and error, each a pass-through to createLog at its fixed level, while
debug and trace are reachable only through createLog's level parameter
(which accepts all five levels and preserves the requested level); every
entry point takes a message string and an optional options bundle whose
data defaults to the empty map, whose tag defaults to the empty string,
and whose supplied values are forwarded unchanged. -/
theorem facade_entry_points (ctx : ActiveContext) (msg : String)
    (o : Option LogOptions) (d : List (String × String)) (t : String) :
    AppLogger.info ctx msg o = createLog ctx Level.info msg o ∧
    AppLogger.warn ctx msg o = createLog ctx Level.warn msg o ∧
    AppLogger.error ctx msg o = createLog ctx Level.error msg o ∧
    (∀ lv, (createLog ctx lv msg o).level = lv) ∧
    (createLog ctx Level.debug msg none).data = [] ∧
    (createLog ctx Level.debug msg none).tag = "" ∧
    (createLog ctx Level.trace msg (some ⟨some d, some t⟩)).data = d ∧
    (createLog ctx Level.trace msg (some ⟨some d, some t⟩)).tag = t :=
  ⟨rfl, rfl, rfl, fun _ => rfl, rfl, rfl, rfl, rfl⟩

/-- C8: the read-back hook is total: with no active span or with an active
span whose span context is absent it contributes the empty field map, a
logging call in those states still yields a record with no trace fields
rather than failing, and an absent trace-flags value is defaulted to 0
(rendered "00") rather than an error. -/
theorem mixin_never_fails :
    mixin none = [] ∧
    mixin (some none) = [] ∧
    (∀ T S, mixin (some (some ⟨T, S, none⟩)) = mixin (some (some ⟨T, S, some 0⟩))) ∧
    (∀ T S, List.lookup "trace_flags" (mixin (some (some ⟨T, S, none⟩)))
        = some (renderTraceFlags 0)) ∧
    renderTraceFlags 0 = "00" ∧
    (∀ lv msg o, (createLog none lv msg o).extraFields = [] ∧
        (createLog (some none) lv msg o).extraFields = []) :=
  ⟨rfl, rfl, fun _ _ => rfl, fun _ _ => rfl, by decide, fun _ _ _ => ⟨rfl, rfl⟩⟩

/-- C10: every setup run that actually initializes the logger (it was
uninitialized) and returns successfully registers exactly the pino-pretty
sink followed by the HyperDX sink: the apiKey guard is necessarily
satisfied once the credential validation has passed, so a console-only
configuration is unreachable. -/
theorem setup_registers_both_sinks (env : ProcessEnv) (l l' : AppLogger)
    (h0 : l.isInitialized = false)
    (h : initializeLogger env l = Except.ok l') :
    l'.pinoTargets = [PinoTarget.pinoPretty, PinoTarget.hyperdxPino] ∧
    l'.isInitialized = true := by
  unfold initializeLogger at h
  rw [h0] at h
  simp only [Bool.false_eq_true, if_false] at h
  by_cases hf : (falsy env.hyperdxApiKey || falsy env.hyperdxService) = true
  · rw [if_pos hf] at h
    exact absurd h (by simp)
  · rw [if_neg hf] at h
    rw [Bool.not_eq_true, Bool.or_eq_false_iff] at hf
    rw [hf.1] at h
    simp only [if_false, Bool.false_eq_true] at h
    cases h
    exact ⟨rfl, rfl⟩

/-- C10 witness: initializing a fresh logger with both variables set and
non-empty registers the two sinks in order. -/
theorem setup_registers_both_sinks_witness :
    (AppLogger.mk true [PinoTarget.pinoPretty, PinoTarget.hyperdxPino]).pinoTargets =
        [PinoTarget.pinoPretty, PinoTarget.hyperdxPino] ∧
    (AppLogger.mk true [PinoTarget.pinoPretty, PinoTarget.hyperdxPino]).isInitialized
        = true :=
  setup_registers_both_sinks ⟨some "k", some "s"⟩ AppLogger.new
    (AppLogger.mk true [PinoTarget.pinoPretty, PinoTarget.hyperdxPino]) rfl rfl

end HDX
